import Mathlib

/-!
Shallow embedding of the navigation core of `seldom_map_nav`
(`src/nav.rs` and `src/forces.rs`).

2D vectors (`glam::Vec2`, `f32` components) are idealized as pairs of real
numbers; `f32` rounding and NaN are out of scope.  Where Rust `normalize()`
would yield NaN on the zero vector we model the result as the zero vector
(as `normalize_or_zero` does); every use below is either guarded by a
non-zero argument or multiplied by zero afterwards, so no theorem relies on
the junk value.

The spatial index (`bevy_spatial` k-d tree) and the navmesh provider
(`navmesh` crate together with the `Navmeshes` component) are not under
`src/`; they are modelled from the spec as an explicit list of entries and
as record-of-query-functions respectively.
-/

open scoped Classical
noncomputable section

/-- 2D vector with real components, modelling `glam::Vec2`. -/
@[ext] structure Vec2 where
  x : ℝ
  y : ℝ

instance : Zero Vec2 := ⟨⟨0, 0⟩⟩
instance : Add Vec2 := ⟨fun a b => ⟨a.x + b.x, a.y + b.y⟩⟩
instance : Neg Vec2 := ⟨fun a => ⟨-a.x, -a.y⟩⟩
instance : Sub Vec2 := ⟨fun a b => ⟨a.x - b.x, a.y - b.y⟩⟩
instance : SMul ℝ Vec2 := ⟨fun r a => ⟨r * a.x, r * a.y⟩⟩
/-- `glam` `Vec2 * f32` (componentwise scale). -/
instance : HMul Vec2 ℝ Vec2 := ⟨fun a r => ⟨a.x * r, a.y * r⟩⟩
/-- `glam` `Vec2 / f32` (componentwise division). -/
instance : HDiv Vec2 ℝ Vec2 := ⟨fun a r => ⟨a.x / r, a.y / r⟩⟩

@[simp] theorem Vec2.zero_x : (0 : Vec2).x = 0 := rfl
@[simp] theorem Vec2.zero_y : (0 : Vec2).y = 0 := rfl
@[simp] theorem Vec2.add_x (a b : Vec2) : (a + b).x = a.x + b.x := rfl
@[simp] theorem Vec2.add_y (a b : Vec2) : (a + b).y = a.y + b.y := rfl
@[simp] theorem Vec2.sub_x (a b : Vec2) : (a - b).x = a.x - b.x := rfl
@[simp] theorem Vec2.sub_y (a b : Vec2) : (a - b).y = a.y - b.y := rfl
@[simp] theorem Vec2.neg_x (a : Vec2) : (-a).x = -a.x := rfl
@[simp] theorem Vec2.neg_y (a : Vec2) : (-a).y = -a.y := rfl
@[simp] theorem Vec2.smul_x (r : ℝ) (a : Vec2) : (r • a).x = r * a.x := rfl
@[simp] theorem Vec2.smul_y (r : ℝ) (a : Vec2) : (r • a).y = r * a.y := rfl
@[simp] theorem Vec2.mulr_x (a : Vec2) (r : ℝ) : (a * r).x = a.x * r := rfl
@[simp] theorem Vec2.mulr_y (a : Vec2) (r : ℝ) : (a * r).y = a.y * r := rfl
@[simp] theorem Vec2.divr_x (a : Vec2) (r : ℝ) : (a / r).x = a.x / r := rfl
@[simp] theorem Vec2.divr_y (a : Vec2) (r : ℝ) : (a / r).y = a.y / r := rfl

/-- `glam::Vec2::length`: Euclidean norm. -/
def Vec2.length (v : Vec2) : ℝ := Real.sqrt (v.x ^ 2 + v.y ^ 2)

/-- `glam::Vec2::distance`. -/
def Vec2.distance (a b : Vec2) : ℝ := (a - b).length

/-- `glam::Vec2::normalize_or_zero`; also stands in for `normalize`
(whose NaN on the zero vector is modelled as the zero vector). -/
def Vec2.norm_or_zero (v : Vec2) : Vec2 :=
  if v.length = 0 then 0 else (1 / v.length) • v

/-- Bridge to `ℂ` to reuse the absolute-value API for norm facts. -/
def Vec2.toC (v : Vec2) : ℂ := ⟨v.x, v.y⟩



/-! ## Spatial index (modelled from the spec)

Modelled from the spec: the SpatialIndex (the `bevy_spatial` k-d tree over
`Collider` entities, not part of `src/`) maintains 2D positions of agents and
answers "k nearest neighbours to P" (closest first) and "all neighbours
within radius R of P".  Entries are (position, optional entity id) pairs,
exactly the shape `bevy_spatial` queries return. -/

/-- One entry of the spatial index: a position and an optional entity id. -/
abbrev SpatialEntry := Vec2 × Option ℕ

/-- Modelled from the spec: insert an entry into a list that is sorted by
distance to `p`, keeping it sorted (closest first). -/
def insertByDist (p : Vec2) (e : SpatialEntry) : List SpatialEntry → List SpatialEntry
  | [] => [e]
  | f :: rest =>
    if Vec2.distance e.1 p ≤ Vec2.distance f.1 p then e :: f :: rest
    else f :: insertByDist p e rest

/-- Modelled from the spec: all entries sorted by distance to `p`, closest
first. -/
def sortByDist (p : Vec2) (l : List SpatialEntry) : List SpatialEntry :=
  l.foldr (insertByDist p) []

/-- Modelled from the spec: `SpatialAccess::k_nearest_neighbour` — the k
entries nearest to `p`, closest first. -/
def k_nearest_neighbour (tree : List SpatialEntry) (p : Vec2) (k : ℕ) :
    List SpatialEntry :=
  (sortByDist p tree).take k

/-- Modelled from the spec: `SpatialAccess::within_distance` — all entries
within radius `r` of `p`. -/
def within_distance (tree : List SpatialEntry) (p : Vec2) (r : ℝ) :
    List SpatialEntry :=
  match tree with
  | [] => []
  | e :: rest =>
    if Vec2.distance e.1 p ≤ r then e :: within_distance rest p r
    else within_distance rest p r

/-! ## `src/forces.rs` -/

def AVOID_FORCE_RATE : ℝ := 0.8
def MAX_QUEUE_AHEAD : ℝ := 54.2
def AVOID_RADIUS : ℝ := 36
def MAX_QUEUE_RADIUS : ℝ := 52
def SEPARATION_FORCE_RATE : ℝ := 1.25
def SEPARATION_RADIUS : ℝ := 38
def MAX_FORCE : ℝ := 3.6
def SEEK_FORCE_RATE : ℝ := 1.0

/-- Body of the `separation_force` loop for one neighbour entry:
`delta / (delta.length() / SEPARATION_RADIUS)`. -/
def sepContrib (current_pos neighbour_pos : Vec2) : Vec2 :=
  let delta := neighbour_pos - current_pos
  let rate := delta.length / SEPARATION_RADIUS
  delta / rate

/-- The `for` loop of `separation_force`, accumulating (force, neighbour
count) left to right over the within-radius entries. -/
def sepLoop (self_id : ℕ) (current_pos : Vec2) :
    List SpatialEntry → Vec2 × ℝ → Vec2 × ℝ
  | [], acc => acc
  | (npos, ent) :: rest, (force, count) =>
    sepLoop self_id current_pos rest
      (match ent with
       | some e =>
         if e ≠ self_id then (force + sepContrib current_pos npos, count + 1)
         else (force, count)
       | none => (force, count))

/-- `src/forces.rs` `separation_force`. -/
def separation_force (self_id : ℕ) (current_pos : Vec2)
    (tree : List SpatialEntry) : Vec2 :=
  let acc := sepLoop self_id current_pos
    (within_distance tree current_pos SEPARATION_RADIUS) (0, 0)
  if acc.2 > 0 then acc.1 / (-acc.2) else acc.1

/-- Inner loop of `get_neighbour_ahead`: first of the given entries whose
entity is some id other than `self_id` and whose position is within
`AVOID_RADIUS` of `p`. -/
def neighbourMatch (self_id : ℕ) (p : Vec2) :
    List SpatialEntry → Option Vec2
  | [] => none
  | (obstacle_pos, ent) :: rest =>
    match ent with
    | some e =>
      if e ≠ self_id ∧ Vec2.distance obstacle_pos p ≤ AVOID_RADIUS then
        some obstacle_pos
      else neighbourMatch self_id p rest
    | none => neighbourMatch self_id p rest

/-- `src/forces.rs` `get_neighbour_ahead`. -/
def get_neighbour_ahead (self_id : ℕ) (current_pos current_velocity : Vec2)
    (tree : List SpatialEntry) : Option Vec2 :=
  let ahead := current_pos + current_velocity * MAX_QUEUE_AHEAD
  neighbourMatch self_id ahead (k_nearest_neighbour tree ahead 2)

/-- Seek component of `apply_forces`:
`(desired_velocity - current_velocity).normalize_or_zero() * SEEK_FORCE_RATE`
where `desired_velocity = (target_pos - current_pos).normalize_or_zero()`. -/
def seekSteering (target_pos current_pos current_velocity : Vec2) : Vec2 :=
  let desired_velocity := (target_pos - current_pos).norm_or_zero
  (desired_velocity - current_velocity).norm_or_zero * SEEK_FORCE_RATE

/-- Steering after the seek and separation components have been summed and
the magnitude capped:
`if steering != ZERO { steering = steering.normalize_or_zero() * MAX_FORCE }`. -/
def cappedSteering (self_id : ℕ) (target_pos current_pos current_velocity : Vec2)
    (tree : List SpatialEntry) : Vec2 :=
  let steering := seekSteering target_pos current_pos current_velocity
    + separation_force self_id current_pos tree
  if steering = 0 then steering else steering.norm_or_zero * MAX_FORCE

/-- The braking term of `apply_forces` when a neighbour is ahead:
`-current_velocity + steering * -0.8 + separation_force(..)` (computed with
the original, undamped velocity and the already-capped steering). -/
def brakeVec (self_id : ℕ) (current_velocity steering current_pos : Vec2)
    (tree : List SpatialEntry) : Vec2 :=
  -current_velocity + steering * ((-0.8 : ℝ)) + separation_force self_id current_pos tree

/-- The steering vector that `apply_forces` finally adds to the velocity:
the capped seek+separation steering, plus — only when a neighbour is ahead —
the brake (added after the cap). -/
def finalSteering (self_id : ℕ) (target_pos current_pos current_velocity : Vec2)
    (tree : List SpatialEntry) : Vec2 :=
  let s := cappedSteering self_id target_pos current_pos current_velocity tree
  match get_neighbour_ahead self_id current_pos current_velocity tree with
  | some _ => s + brakeVec self_id current_velocity s current_pos tree
  | none => s

/-- The velocity that `apply_forces` finally adds the steering to: damped by
`0.3` when the neighbour ahead is within `MAX_QUEUE_RADIUS` of the current
position. -/
def dampedVelocity (self_id : ℕ) (current_pos current_velocity : Vec2)
    (tree : List SpatialEntry) : Vec2 :=
  match get_neighbour_ahead self_id current_pos current_velocity tree with
  | some obstacle =>
    if Vec2.distance current_pos obstacle ≤ MAX_QUEUE_RADIUS then
      current_velocity * (0.3 : ℝ)
    else current_velocity
  | none => current_velocity

/-- `src/forces.rs` `apply_forces`:
`(current_velocity + steering).normalize_or_zero()` with the mutations of
`current_velocity` and `steering` factored into `dampedVelocity` and
`finalSteering`. -/
def apply_forces (self_id : ℕ) (target_pos current_pos current_velocity : Vec2)
    (tree : List SpatialEntry) : Vec2 :=
  (dampedVelocity self_id current_pos current_velocity tree
    + finalSteering self_id target_pos current_pos current_velocity tree).norm_or_zero

/-! ## `src/nav.rs` -/

def MAX_SEE_AHEAD : ℝ := 4.2
def MAX_AVOID_FORCE : ℝ := 0.88
def COLLISION_RADIUS : ℝ := 48

/-- `src/nav.rs` `find_closest_obstacle`: looks at the second of the two
entries nearest to `ahead` (`neighbours.get(1)`); yields its position if it
is another entity within `COLLISION_RADIUS` of `ahead`.  (`self_pos` and
`ahead2` are unused, as in the source.) -/
def find_closest_obstacle (self_id : ℕ) (self_pos ahead ahead2 : Vec2)
    (tree : List SpatialEntry) : Option Vec2 :=
  let neighbours := k_nearest_neighbour tree ahead 2
  match neighbours[1]? with
  | some (obstacle_pos, some e) =>
    if e ≠ self_id ∧ Vec2.distance obstacle_pos ahead ≤ COLLISION_RADIUS then
      some obstacle_pos
    else none
  | _ => none

/-- `src/nav.rs` `collision_avoidance`.  (The Rust source uses `normalize()`;
the NaN it would produce for `desired_pos = current_pos` is modelled as the
zero vector.) -/
def collision_avoidance (self_id : ℕ) (desired_pos current_pos : Vec2)
    (tree : List SpatialEntry) : Vec2 :=
  let desired_velocity := (desired_pos - current_pos).norm_or_zero
  let ahead_mult := desired_velocity * MAX_SEE_AHEAD
  let ahead := current_pos + ahead_mult
  let ahead2 := current_pos + ahead_mult * (0.5 : ℝ)
  match find_closest_obstacle self_id current_pos ahead ahead2 tree with
  | some obstacle => (ahead - obstacle).norm_or_zero
  | none => 0

/-- `navmesh::NavQuery` (quality of querying a point on the navmesh). -/
inductive NavQuery
  | Accuracy
  | Closest
  | ClosestFirst

/-- `navmesh::NavPathMode` (quality of finding a path). -/
inductive NavPathMode
  | Accuracy
  | MidPoints

/-- `src/nav.rs` `PathTarget`. -/
inductive PathTarget
  | Static (pos : Vec2)
  | Dynamic (entity : ℕ)

/-- Rust `std::time::Duration`, modelled as a count of nanoseconds. -/
abbrev Duration := ℕ

/-- `Duration::MAX` = `u64::MAX` seconds + 999 999 999 nanoseconds. -/
def durationMAX : Duration := (2 ^ 64 - 1) * 1000000000 + 999999999

/-- `src/nav.rs` `Pathfind` component. -/
structure Pathfind where
  map : ℕ
  radius : ℝ
  repath_frequency : Option Duration
  next_repath : Duration
  target : PathTarget
  path : List Vec2
  query : NavQuery
  path_mode : NavPathMode

/-- `Pathfind::new`. -/
def Pathfind.new (map : ℕ) (radius : ℝ) (repath_frequency : Option Duration)
    (target : PathTarget) (query : NavQuery) (path_mode : NavPathMode) :
    Pathfind :=
  ⟨map, radius, repath_frequency, 0, target, [], query, path_mode⟩

/-- `src/nav.rs` `Nav` component. -/
structure Nav where
  speed : ℝ
  done : Bool

/-- `Nav::new`. -/
def Nav.new (speed : ℝ) : Nav := ⟨speed, false⟩

/-- Modelled from the spec: a navmesh variant
(`navmesh::NavMesh.find_path(from, to, query, path_mode)`, external to
`src/`), abstracted as its corridor query; `none` means no valid path. -/
structure NavMesh where
  find_path : Vec2 → Vec2 → NavQuery → NavPathMode → Option (List Vec2)

/-- Modelled from the spec: the `Navmeshes` component (defined outside
`src/`) — `mesh(clearance)` yields the mesh variant for a clearance radius,
or `none` when no variant has at least that clearance. -/
structure Navmeshes where
  mesh : ℝ → Option NavMesh

/-- The surrounding ECS world as `generate_paths` sees it: the `meshes` and
`positions` queries by entity id. -/
structure World where
  meshes : ℕ → Option Navmeshes
  positions : ℕ → Option Vec2

/-- Planning failures of the `path` closure in `generate_paths`, in the
order the source can raise them. -/
inductive PlanError
  | noMapEntity
  | noMeshForClearance
  | unresolvableDynamicTarget
  | noPathFound

/-- Resolution of `pathfind.target` to a point: a static target directly, a
dynamic target through `positions.get(target)?`. -/
def resolveTarget (w : World) (t : PathTarget) : Except PlanError Vec2 :=
  match t with
  | .Static pos => .ok pos
  | .Dynamic e =>
    match w.positions e with
    | some pos => .ok pos
    | none => .error .unresolvableDynamicTarget

/-- The `path` closure of `generate_paths`: map lookup, mesh-for-clearance
lookup, target resolution, then the navmesh path query.  (The z-extension to
3D and truncation back on each waypoint compose to the identity and are
elided.) -/
def planPath (w : World) (position : Vec2) (pf : Pathfind) :
    Except PlanError (List Vec2) :=
  match w.meshes pf.map with
  | none => .error .noMapEntity
  | some nms =>
    match nms.mesh pf.radius with
    | none => .error .noMeshForClearance
    | some m =>
      match resolveTarget w pf.target with
      | .error e => .error e
      | .ok tgt =>
        match m.find_path position tgt pf.query pf.path_mode with
        | none => .error .noPathFound
        | some waypoints => .ok waypoints

/-- `path.unwrap_or_default()`: the planned corridor, or empty on failure. -/
def planPathList (w : World) (position : Vec2) (pf : Pathfind) : List Vec2 :=
  match planPath w position pf with
  | .ok p => p
  | .error _ => []

/-- The repath decision at the top of the `generate_paths` loop: the new
`next_repath` value and whether to replan.  `repath_frequency = some f`
replans when `next_repath <= elapsed` and then sets
`next_repath = elapsed + f`; `repath_frequency = none` (plan once) replans
when `next_repath == 0` and then sets `next_repath = Duration::MAX`. -/
def scheduleRepath (pf : Pathfind) (elapsed : Duration) : Duration × Bool :=
  match pf.repath_frequency with
  | some repath_frequency =>
    if pf.next_repath ≤ elapsed then (elapsed + repath_frequency, true)
    else (pf.next_repath, false)
  | none =>
    if pf.next_repath = 0 then (durationMAX, true)
    else (pf.next_repath, false)

/-- One iteration of the `generate_paths` loop for one agent: decide whether
to replan; on replanning store the resulting corridor (empty on failure) and
set `nav.done = path.is_empty()` when the agent has a `Nav`. -/
def generate_paths_step (w : World) (position : Vec2) (pf : Pathfind)
    (nv : Option Nav) (elapsed : Duration) : Pathfind × Option Nav :=
  let sched := scheduleRepath pf elapsed
  let pf1 := { pf with next_repath := sched.1 }
  if sched.2 then
    let pf2 := { pf1 with path := planPathList w position pf1 }
    match nv with
    | none => (pf2, none)
    | some n => (pf2, some { n with done := pf2.path.isEmpty })
  else (pf1, nv)

/-- The waypoint-consumption `while` loop of `nav`: consume front waypoints
while the remaining travel budget covers the distance to them; returns the
remaining corridor, the position after consumption, and the leftover
budget.  (The source's `break` after a pop that empties the deque coincides
with re-entering the loop on an empty list here.) -/
def consume : List Vec2 → Vec2 → ℝ → List Vec2 × Vec2 × ℝ
  | [], pos, travel_dist => ([], pos, travel_dist)
  | dest :: rest, pos, travel_dist =>
    let dest_dist := Vec2.distance dest pos
    if dest_dist ≤ travel_dist then consume rest dest (travel_dist - dest_dist)
    else (dest :: rest, pos, travel_dist)

/-- The same loop with the `pathfind.path.front().unwrap()` read made
explicit: `none` models the panic of `unwrap` on an empty deque, and the
`break` after an emptying pop is kept as in the source. -/
def consumeF : List Vec2 → Vec2 → ℝ → Option (List Vec2 × Vec2 × ℝ)
  | [], _, _ => none
  | dest :: rest, pos, travel_dist =>
    let dest_dist := Vec2.distance dest pos
    if dest_dist ≤ travel_dist then
      if rest.isEmpty then some ([], dest, travel_dist - dest_dist)
      else consumeF rest dest (travel_dist - dest_dist)
    else some (dest :: rest, pos, travel_dist)

/-- The advance of `nav` along the corridor: the consumption loop followed,
when waypoints remain, by the partial advance
`pos += (dest - pos).normalize() * travel_dist` (which leaves the
`travel_dist` variable unchanged, as in the source). -/
def corridorMove (path : List Vec2) (pos : Vec2) (travel_dist : ℝ) :
    List Vec2 × Vec2 × ℝ :=
  let r := consume path pos travel_dist
  match r.1 with
  | [] => r
  | dest :: rest =>
    (dest :: rest, r.2.1 + (dest - r.2.1).norm_or_zero * r.2.2, r.2.2)

/-- One iteration of the `nav` system loop for one agent: skip agents with
an empty corridor; otherwise advance along the corridor by at most
`speed * delta_seconds`, set `done` when the corridor empties, and add the
collision-avoidance offset scaled by the leftover budget. -/
def navStep (tree : List SpatialEntry) (entity : ℕ) (position : Vec2)
    (pf : Pathfind) (nv : Nav) (delta_seconds : ℝ) : Vec2 × Pathfind × Nav :=
  if pf.path.isEmpty then (position, pf, nv)
  else
    let old_pos := position
    let travel_dist := nv.speed * delta_seconds
    let m := corridorMove pf.path old_pos travel_dist
    let nv2 := if m.1.isEmpty then { nv with done := true } else nv
    let pos2 := m.2.1
      + collision_avoidance entity m.2.1 old_pos tree * m.2.2 * MAX_AVOID_FORCE
    (pos2, { pf with path := m.1 }, nv2)

/-- Remaining length of a corridor seen from `pos`: the polyline length
through all waypoints. -/
def remLength : Vec2 → List Vec2 → ℝ
  | _, [] => 0
  | pos, dest :: rest => Vec2.distance dest pos + remLength dest rest

/-- Arc length actually travelled along the corridor by one tick of `nav`:
budget spent in the consumption loop, plus — when waypoints remain — the
leftover spent by the partial advance. -/
def arcTraveled (path : List Vec2) (pos : Vec2) (travel_dist : ℝ) : ℝ :=
  let r := consume path pos travel_dist
  (travel_dist - r.2.2) + (if r.1.isEmpty then 0 else r.2.2)

/-! ## Concrete scenarios used by the claims -/

/-- Scenario: the agent (entity 0) and one other collider at `(30, 0)`. -/
def qtree : List SpatialEntry := [(⟨0, 0⟩, some 0), (⟨30, 0⟩, some 1)]

/-- The same scenario with the other collider absent. -/
def qtree1 : List SpatialEntry := [(⟨0, 0⟩, some 0)]

/-- Scenario: the agent (entity 0) and an obstacle at `(4.2, 30)`, i.e. at
distance 30 from the agent's lookahead point. -/
def c1tree : List SpatialEntry := [(⟨0, 0⟩, some 0), (⟨4.2, 30⟩, some 1)]

/-- A `Pathfind` that already holds the single-waypoint corridor
`[(100, 0)]` (once policy, already planned). -/
def c1pf : Pathfind :=
  ⟨0, 1, none, durationMAX, .Static ⟨100, 0⟩, [⟨100, 0⟩], .Accuracy, .Accuracy⟩

/-- A `Nav` with speed 50 that has not arrived. -/
def c1nav : Nav := ⟨50, false⟩

/-- A world with no map entities and no positions. -/
def c2w : World := ⟨fun _ => none, fun _ => none⟩

/-- A fresh once-policy `Pathfind` towards a static target, map entity 0. -/
def c2pf : Pathfind := Pathfind.new 0 1 none (.Static ⟨0, 0⟩) .Accuracy .Accuracy

/-- A mesh whose path query always returns the corridor `[(100, 0)]`. -/
def mesh100 : NavMesh := ⟨fun _ _ _ _ => some [⟨100, 0⟩]⟩

/-- Navmeshes offering `mesh100` at every clearance. -/
def meshes100 : Navmeshes := ⟨fun _ => some mesh100⟩

/-- A world where every map entity holds `meshes100` and no entity has a
position. -/
def w100 : World := ⟨fun _ => some meshes100, fun _ => none⟩

/-- A spatial index holding only the navigating agent itself. -/
def c7tree : List SpatialEntry := [(⟨0, 0⟩, some 0)]

/-- A fresh once-policy `Pathfind` from the origin towards `(100, 0)`. -/
def c7pf : Pathfind := Pathfind.new 0 1 none (.Static ⟨100, 0⟩) .Accuracy .Accuracy

/-- A fresh `Nav` with speed 50. -/
def c7nav : Nav := Nav.new 50

/-- A periodic `Pathfind` (interval 5) towards dynamic target entity 3. -/
def c8pf : Pathfind := Pathfind.new 0 1 (some 5) (.Dynamic 3) .Accuracy .Accuracy

/-- Iterated planning steps (`generate_paths` over successive ticks),
tracking the `Pathfind` through a list of per-tick inputs. -/
def runSteps (pf : Pathfind) :
    List (World × Vec2 × Option Nav × Duration) → Pathfind
  | [] => pf
  | (w, position, nv, t) :: rest =>
    runSteps (generate_paths_step w position pf nv t).1 rest

/-- Validity test of the `separation_force` loop: the entry names an entity
other than the agent itself. -/
def sepValid (self_id : ℕ) (e : SpatialEntry) : Bool :=
  match e.2 with
  | some i => decide (i ≠ self_id)
  | none => false

/-- Sum of a list of vectors. -/
def vsum : List Vec2 → Vec2
  | [] => 0
  | v :: rest => v + vsum rest

/-! ## Theorems -/
namespace Vec2

theorem length_mk (a b : ℝ) : length ⟨a, b⟩ = Real.sqrt (a ^ 2 + b ^ 2) := rfl

theorem distance_mk (a b c d : ℝ) :
    distance ⟨a, b⟩ ⟨c, d⟩ = Real.sqrt ((a - c) ^ 2 + (b - d) ^ 2) := rfl

theorem length_eq_abs_toC (v : Vec2) : v.length = Complex.abs v.toC := by
  rw [Complex.abs_apply, Complex.normSq_apply, length]
  congr 1
  show v.x ^ 2 + v.y ^ 2 = v.x * v.x + v.y * v.y
  ring

theorem toC_add (a b : Vec2) : toC (a + b) = toC a + toC b := by
  apply Complex.ext <;> simp [toC]

theorem length_nonneg (v : Vec2) : 0 ≤ v.length := Real.sqrt_nonneg _

theorem length_zero : (0 : Vec2).length = 0 := by
  simp [length]

theorem length_eq_zero_iff {v : Vec2} : v.length = 0 ↔ v = 0 := by
  rw [length, Real.sqrt_eq_zero']
  constructor
  · intro h
    have hx : v.x = 0 := by nlinarith [sq_nonneg v.x, sq_nonneg v.y]
    have hy : v.y = 0 := by nlinarith [sq_nonneg v.x, sq_nonneg v.y]
    ext <;> simp [hx, hy]
  · intro h
    subst h
    simp

theorem length_pos {v : Vec2} (h : v ≠ 0) : 0 < v.length :=
  lt_of_le_of_ne (length_nonneg v) fun h0 => h (length_eq_zero_iff.mp h0.symm)

theorem length_add_le (a b : Vec2) : (a + b).length ≤ a.length + b.length := by
  rw [length_eq_abs_toC, length_eq_abs_toC, length_eq_abs_toC, toC_add]
  exact Complex.abs.add_le _ _

theorem length_smul (r : ℝ) (v : Vec2) : (r • v).length = |r| * v.length := by
  rw [length, length]
  have : (r • v).x ^ 2 + (r • v).y ^ 2 = r ^ 2 * (v.x ^ 2 + v.y ^ 2) := by
    simp only [smul_x, smul_y]; ring
  rw [this, Real.sqrt_mul (sq_nonneg r), Real.sqrt_sq_eq_abs]

theorem length_mulr (v : Vec2) (r : ℝ) : (v * r).length = |r| * v.length := by
  have h : v * r = r • v := by ext <;> simp [mul_comm]
  rw [h, length_smul]

theorem distance_self (a : Vec2) : distance a a = 0 := by
  have h : a - a = 0 := by ext <;> simp
  rw [distance, h, length_zero]

theorem distance_triangle (a b c : Vec2) :
    distance a c ≤ distance a b + distance b c := by
  have h : a - c = (a - b) + (b - c) := by ext <;> simp
  rw [distance, h]
  exact length_add_le _ _

theorem distance_add_right (p v : Vec2) : distance (p + v) p = v.length := by
  have h : (p + v) - p = v := by ext <;> simp
  rw [distance, h]

theorem norm_or_zero_length_le_one (v : Vec2) : v.norm_or_zero.length ≤ 1 := by
  rw [norm_or_zero]
  split
  · simp [length_zero]
  · next h =>
    rw [length_smul]
    have hp : 0 < v.length := lt_of_le_of_ne (length_nonneg v) (Ne.symm h)
    rw [abs_of_pos (by positivity)]
    rw [one_div, inv_mul_cancel₀ (ne_of_gt hp)]

theorem norm_or_zero_length {v : Vec2} (h : v ≠ 0) : v.norm_or_zero.length = 1 := by
  rw [norm_or_zero, if_neg (fun h0 => h (length_eq_zero_iff.mp h0)), length_smul]
  have hp : 0 < v.length := length_pos h
  rw [abs_of_pos (by positivity), one_div, inv_mul_cancel₀ (ne_of_gt hp)]

/-- A normalized vector is the zero vector or has unit length. -/
theorem norm_or_zero_cases (v : Vec2) :
    v.norm_or_zero = 0 ∨ v.norm_or_zero.length = 1 := by
  by_cases h : v = 0
  · left; rw [h, norm_or_zero, if_pos length_zero]
  · right; exact norm_or_zero_length h

/-- Evaluation helper: `norm_or_zero` at a concretely known nonzero length. -/
theorem norm_or_zero_eval {a b L : ℝ} (hL : Real.sqrt (a ^ 2 + b ^ 2) = L)
    (h0 : L ≠ 0) : norm_or_zero ⟨a, b⟩ = ⟨a / L, b / L⟩ := by
  rw [norm_or_zero, length_mk, hL, if_neg h0]
  ext <;> simp <;> ring

end Vec2

/-- Evaluation helper for square roots of perfect squares. -/
theorem sqrt_eval {a b : ℝ} (hb : 0 ≤ b) (h : a = b ^ 2) : Real.sqrt a = b := by
  rw [h, Real.sqrt_sq hb]

theorem Vec2.distance_nonneg (a b : Vec2) : 0 ≤ Vec2.distance a b :=
  Vec2.length_nonneg _

/-! ### Scheduler and planner lemmas -/

theorem scheduleRepath_mono (pf : Pathfind) (t : Duration) :
    pf.next_repath ≤ (scheduleRepath pf t).1 := by
  rcases h : pf.repath_frequency with _ | f
  · simp only [scheduleRepath, h]
    split
    · next h0 => rw [h0]; exact Nat.zero_le _
    · exact le_refl _
  · simp only [scheduleRepath, h]
    split
    · next h0 =>
      show pf.next_repath ≤ t + f
      exact le_trans h0 (Nat.le_add_right t f)
    · exact le_refl _

/-- When the repath decision does not fire, `scheduleRepath` keeps
`next_repath` unchanged. -/
theorem scheduleRepath_false (pf : Pathfind) (t : Duration)
    (hs : (scheduleRepath pf t).2 = false) :
    scheduleRepath pf t = (pf.next_repath, false) := by
  rcases h : pf.repath_frequency with _ | f
  · by_cases h0 : pf.next_repath = 0
    · simp [scheduleRepath, h, h0] at hs
    · simp [scheduleRepath, h, h0]
  · by_cases h0 : pf.next_repath ≤ t
    · simp [scheduleRepath, h, h0] at hs
    · simp [scheduleRepath, h, h0]

/-- A planning step whose repath decision does not fire changes nothing. -/
theorem gen_step_noop (w : World) (position : Vec2) (pf : Pathfind)
    (nv : Option Nav) (t : Duration) (hs : (scheduleRepath pf t).2 = false) :
    generate_paths_step w position pf nv t = (pf, nv) := by
  have h1 := scheduleRepath_false pf t hs
  simp [generate_paths_step, h1]

theorem generate_paths_step_next_repath (w : World) (position : Vec2)
    (pf : Pathfind) (nv : Option Nav) (t : Duration) :
    (generate_paths_step w position pf nv t).1.next_repath
      = (scheduleRepath pf t).1 := by
  unfold generate_paths_step
  dsimp only
  split
  · cases nv <;> rfl
  · rfl

/-- When the repath decision fires and the plan fails, the stored corridor
is empty and `done` is set to `true` (because `done = path.is_empty()`). -/
theorem gen_step_plan_failure (w : World) (position : Vec2) (pf : Pathfind)
    (nv : Option Nav) (t : Duration) (err : PlanError)
    (hs : (scheduleRepath pf t).2 = true)
    (hp : planPath w position pf = .error err) :
    (generate_paths_step w position pf nv t).1.path = [] ∧
      (generate_paths_step w position pf nv t).2
        = nv.map (fun n => { n with done := true }) := by
  have hlist : planPathList w position
      { pf with next_repath := (scheduleRepath pf t).1 } = [] := by
    have hp2 : planPath w position
        { pf with next_repath := (scheduleRepath pf t).1 } = .error err := hp
    rw [planPathList, hp2]
  cases nv <;> simp [generate_paths_step, hs, hlist]

/-- An agent with an empty corridor is skipped by the movement step. -/
theorem navStep_empty (tree : List SpatialEntry) (entity : ℕ) (position : Vec2)
    (pf : Pathfind) (nv : Nav) (dt : ℝ) (h : pf.path = []) :
    navStep tree entity position pf nv dt = (position, pf, nv) := by
  rw [navStep, if_pos (by simp [h])]

/-! ### C9 -/

/-- C9: no planning step (`generate_paths`) ever assigns `next_repath` a
value smaller than its previous value — under the once policy
(`repath_frequency = none`) and the periodic policy alike — hence
`next_repath` is monotonically non-decreasing along any sequence of
planning steps. -/
theorem C9_next_repath_monotone :
    (∀ (w : World) (position : Vec2) (pf : Pathfind) (nv : Option Nav)
        (t : Duration),
      pf.next_repath ≤ (generate_paths_step w position pf nv t).1.next_repath) ∧
    ∀ (pf : Pathfind) (steps : List (World × Vec2 × Option Nav × Duration)),
      pf.next_repath ≤ (runSteps pf steps).next_repath := by
  have step : ∀ (w : World) (position : Vec2) (pf : Pathfind) (nv : Option Nav)
      (t : Duration),
      pf.next_repath ≤ (generate_paths_step w position pf nv t).1.next_repath := by
    intro w position pf nv t
    rw [generate_paths_step_next_repath]
    exact scheduleRepath_mono pf t
  refine ⟨step, ?_⟩
  intro pf steps
  induction steps generalizing pf with
  | nil => exact le_refl _
  | cons s rest ih =>
    obtain ⟨w, position, nv, t⟩ := s
    exact le_trans (step w position pf nv t) (ih _)

/-! ### C10 -/

/-- C10: reading the front of the corridor in the waypoint-consumption loop
never panics: started on a non-empty corridor, the loop with the
`front().unwrap()` read made fallible (`none` = panic) returns exactly the
total loop's result — the only `none` case is an empty corridor on entry,
which `nav` filters out before the loop. -/
theorem C10_front_unwrap_safe (path : List Vec2) (pos : Vec2)
    (travel_dist : ℝ) (h : path ≠ []) :
    consumeF path pos travel_dist = some (consume path pos travel_dist) := by
  induction path generalizing pos travel_dist with
  | nil => exact absurd rfl h
  | cons d rest ih =>
    simp only [consumeF, consume]
    by_cases hD : Vec2.distance d pos ≤ travel_dist
    · rw [if_pos hD, if_pos hD]
      cases rest with
      | nil => simp [consume]
      | cons r rs => simpa using ih d (travel_dist - Vec2.distance d pos) (by simp)
    · rw [if_neg hD, if_neg hD]

/-- Witness for C10 at a concrete input. -/
theorem C10_witness :
    ([(⟨1, 0⟩ : Vec2)] ≠ []) ∧
      consumeF [⟨1, 0⟩] ⟨0, 0⟩ 0 = some (consume [⟨1, 0⟩] ⟨0, 0⟩ 0) :=
  ⟨by simp, C10_front_unwrap_safe [⟨1, 0⟩] ⟨0, 0⟩ 0 (by simp)⟩

/-! ### C6 -/

/-- C6: with the once policy (`repath_frequency = none`) in its initial
state (`next_repath = 0`), the first planning step computes the corridor
(storing `planPath`'s result and the `Duration::MAX` sentinel) and a second
planning step — at any world, position and time — changes nothing. -/
theorem C6_once_idempotent (w : World) (position : Vec2) (pf : Pathfind)
    (nv : Option Nav) (t1 : Duration)
    (hf : pf.repath_frequency = none) (h0 : pf.next_repath = 0) :
    (generate_paths_step w position pf nv t1).1.path
        = planPathList w position pf ∧
    (generate_paths_step w position pf nv t1).1.next_repath = durationMAX ∧
    ∀ (w2 : World) (p2 : Vec2) (t2 : Duration),
      generate_paths_step w2 p2 (generate_paths_step w position pf nv t1).1
          (generate_paths_step w position pf nv t1).2 t2
        = generate_paths_step w position pf nv t1 := by
  have hsched : scheduleRepath pf t1 = (durationMAX, true) := by
    simp [scheduleRepath, hf, h0]
  have h1 : (generate_paths_step w position pf nv t1).1
      = { pf with next_repath := durationMAX,
                  path := planPathList w position pf } := by
    cases nv <;> simp [generate_paths_step, hsched] <;> rfl
  refine ⟨by rw [h1], by rw [h1], ?_⟩
  intro w2 p2 t2
  have hs2 : (scheduleRepath (generate_paths_step w position pf nv t1).1 t2).2
      = false := by
    rw [h1]
    have hMAX : durationMAX ≠ 0 := by norm_num [durationMAX]
    simp [scheduleRepath, hf, hMAX]
  rw [gen_step_noop w2 p2 _ _ t2 hs2]

/-- Witness for C6 at a concrete input (fresh once-policy `Pathfind`). -/
theorem C6_witness :
    c7pf.repath_frequency = none ∧ c7pf.next_repath = 0 ∧
      (generate_paths_step w100 ⟨0, 0⟩ c7pf (some c7nav) 0).1.next_repath
        = durationMAX :=
  ⟨rfl, rfl,
    (C6_once_idempotent w100 ⟨0, 0⟩ c7pf (some c7nav) 0 rfl rfl).2.1⟩

/-! ### C2 -/

/-- C2 (counterexample to the claim as stated): a planning failure (here: a
missing map entity) leaves an empty corridor but sets the agent's `done`
flag to `true`, not `false` — `generate_paths` runs
`nav.done = pathfind.path.is_empty()` unconditionally. -/
theorem C2_counterexample :
    (generate_paths_step c2w ⟨0, 0⟩ c2pf (some (Nav.new 7)) 0).1.path = [] ∧
      (generate_paths_step c2w ⟨0, 0⟩ c2pf (some (Nav.new 7)) 0).2
        = some ⟨7, true⟩ :=
  ⟨rfl, rfl⟩

/-- C2 (amended): a planning failure leaves the agent with an empty
corridor and its `done` flag equal to `true` (the flag tracks corridor
emptiness, so a failure is indistinguishable from arrival in `Nav`; only
the optional `seldom_state` `Done::Failure` signal distinguishes it). -/
theorem C2_plan_failure_state (w : World) (position : Vec2) (pf : Pathfind)
    (n : Nav) (t : Duration) (err : PlanError)
    (hs : (scheduleRepath pf t).2 = true)
    (hp : planPath w position pf = .error err) :
    (generate_paths_step w position pf (some n) t).1.path = [] ∧
      (generate_paths_step w position pf (some n) t).2
        = some { n with done := true } := by
  have h := gen_step_plan_failure w position pf (some n) t err hs hp
  simpa using h

/-- Witness for C2's amended theorem at a concrete input. -/
theorem C2_witness :
    (scheduleRepath c2pf 0).2 = true ∧
      planPath c2w ⟨0, 0⟩ c2pf = .error PlanError.noMapEntity ∧
      (generate_paths_step c2w ⟨0, 0⟩ c2pf (some (Nav.new 9)) 0).2
        = some { Nav.new 9 with done := true } :=
  ⟨rfl, rfl,
    (C2_plan_failure_state c2w ⟨0, 0⟩ c2pf (Nav.new 9) 0 .noMapEntity rfl rfl).2⟩

/-! ### C8 -/

/-- C8: a dynamic target whose referenced agent no longer has a position is
treated as the planning failure `unresolvableDynamicTarget` (not a panic:
the `?` on `positions.get` is caught by the closure), the corridor is set
to empty, and the movement step then leaves the agent's position
unchanged that tick. -/
theorem C8_dynamic_target_gone (w : World) (position : Vec2) (pf : Pathfind)
    (n : Nav) (t : Duration) (tid : ℕ) (nms : Navmeshes) (m : NavMesh)
    (hs : (scheduleRepath pf t).2 = true)
    (htgt : pf.target = .Dynamic tid)
    (hpos : w.positions tid = none)
    (hm : w.meshes pf.map = some nms)
    (hmesh : nms.mesh pf.radius = some m) :
    planPath w position pf = .error .unresolvableDynamicTarget ∧
      (generate_paths_step w position pf (some n) t).1.path = [] ∧
      ∀ (tree : List SpatialEntry) (entity : ℕ) (nv2 : Nav) (dt : ℝ),
        (navStep tree entity position
            (generate_paths_step w position pf (some n) t).1 nv2 dt).1
          = position := by
  have hplan : planPath w position pf = .error .unresolvableDynamicTarget := by
    simp [planPath, hm, hmesh, resolveTarget, htgt, hpos]
  have hfail := gen_step_plan_failure w position pf (some n) t _ hs hplan
  refine ⟨hplan, hfail.1, ?_⟩
  intro tree entity nv2 dt
  rw [navStep_empty tree entity position _ nv2 dt hfail.1]

/-- Witness for C8 at a concrete input (periodic policy, dynamic target 3
absent from the world). -/
theorem C8_witness :
    planPath w100 ⟨0, 0⟩ c8pf = .error .unresolvableDynamicTarget ∧
      (navStep [] 0 ⟨0, 0⟩
          (generate_paths_step w100 ⟨0, 0⟩ c8pf (some (Nav.new 1)) 0).1
          (Nav.new 1) 1).1
        = ⟨0, 0⟩ :=
  ⟨(C8_dynamic_target_gone w100 ⟨0, 0⟩ c8pf (Nav.new 1) 0 3 meshes100 mesh100
      rfl rfl rfl rfl rfl).1,
    (C8_dynamic_target_gone w100 ⟨0, 0⟩ c8pf (Nav.new 1) 0 3 meshes100 mesh100
      rfl rfl rfl rfl rfl).2.2 [] 0 (Nav.new 1) 1⟩

/-! ### Componentwise evaluation lemmas for concrete vectors -/

@[simp] theorem Vec2.mk_add_mk (a b c d : ℝ) :
    (⟨a, b⟩ + ⟨c, d⟩ : Vec2) = ⟨a + c, b + d⟩ := rfl

@[simp] theorem Vec2.mk_sub_mk (a b c d : ℝ) :
    (⟨a, b⟩ - ⟨c, d⟩ : Vec2) = ⟨a - c, b - d⟩ := rfl

@[simp] theorem Vec2.mk_mulr (a b r : ℝ) :
    ((⟨a, b⟩ : Vec2) * r) = ⟨a * r, b * r⟩ := rfl

@[simp] theorem Vec2.mk_divr (a b r : ℝ) :
    ((⟨a, b⟩ : Vec2) / r) = ⟨a / r, b / r⟩ := rfl

@[simp] theorem Vec2.smul_mk (r a b : ℝ) :
    (r • (⟨a, b⟩ : Vec2)) = ⟨r * a, r * b⟩ := rfl

@[simp] theorem Vec2.neg_mk (a b : ℝ) : (-(⟨a, b⟩ : Vec2)) = ⟨-a, -b⟩ := rfl

theorem Vec2.zero_eq_mk : (0 : Vec2) = ⟨0, 0⟩ := rfl

/-! ### C1: corridor budget bounds -/

/-- The consumption loop leaves a non-negative leftover budget bounded by
the initial budget, and its net displacement is bounded by the spent
budget. -/
theorem consume_bounds (path : List Vec2) (pos : Vec2) (b : ℝ) (hb : 0 ≤ b) :
    0 ≤ (consume path pos b).2.2 ∧ (consume path pos b).2.2 ≤ b ∧
      Vec2.distance (consume path pos b).2.1 pos ≤ b - (consume path pos b).2.2 := by
  induction path generalizing pos b with
  | nil =>
    refine ⟨hb, le_refl b, ?_⟩
    simp [consume, Vec2.distance_self]
  | cons d rest ih =>
    simp only [consume]
    by_cases hD : Vec2.distance d pos ≤ b
    · rw [if_pos hD]
      have hD0 : 0 ≤ Vec2.distance d pos := Vec2.distance_nonneg d pos
      obtain ⟨h1, h2, h3⟩ := ih d (b - Vec2.distance d pos) (by linarith)
      refine ⟨h1, by linarith, ?_⟩
      have htri := Vec2.distance_triangle
        (consume rest d (b - Vec2.distance d pos)).2.1 d pos
      linarith
    · rw [if_neg hD]
      exact ⟨hb, le_refl b, by simp [Vec2.distance_self]⟩

/-- The corridor advance (waypoint consumption plus partial advance toward
the next waypoint) displaces the agent by at most the travel budget. -/
theorem corridorMove_bound (path : List Vec2) (pos : Vec2) (b : ℝ)
    (hb : 0 ≤ b) : Vec2.distance (corridorMove path pos b).2.1 pos ≤ b := by
  obtain ⟨h1, h2, h3⟩ := consume_bounds path pos b hb
  simp only [corridorMove]
  rcases hr : (consume path pos b).1 with _ | ⟨d, rest⟩
  · simpa using h3.trans (by linarith)
  · simp only []
    have hstep : Vec2.distance
        ((consume path pos b).2.1
          + (d - (consume path pos b).2.1).norm_or_zero * (consume path pos b).2.2)
        (consume path pos b).2.1
        = ((d - (consume path pos b).2.1).norm_or_zero
            * (consume path pos b).2.2).length :=
      Vec2.distance_add_right _ _
    have hlen : ((d - (consume path pos b).2.1).norm_or_zero
        * (consume path pos b).2.2).length ≤ (consume path pos b).2.2 := by
      rw [Vec2.length_mulr, abs_of_nonneg h1]
      have hn1 := Vec2.norm_or_zero_length_le_one (d - (consume path pos b).2.1)
      have hn0 := Vec2.length_nonneg
        ((d - (consume path pos b).2.1).norm_or_zero)
      nlinarith
    have htri := Vec2.distance_triangle
      ((consume path pos b).2.1
        + (d - (consume path pos b).2.1).norm_or_zero * (consume path pos b).2.2)
      (consume path pos b).2.1 pos
    linarith

/-- When the corridor's remaining length covers the whole budget and the
loop empties the corridor anyway, the leftover is exactly zero. -/
theorem consume_full (path : List Vec2) (pos : Vec2) (b : ℝ) (hb : 0 ≤ b)
    (hrem : b ≤ remLength pos path) :
    (consume path pos b).1 = [] → (consume path pos b).2.2 = 0 := by
  induction path generalizing pos b with
  | nil =>
    intro _
    simp only [remLength] at hrem
    simp only [consume]
    linarith
  | cons d rest ih =>
    simp only [consume]
    simp only [remLength] at hrem
    by_cases hD : Vec2.distance d pos ≤ b
    · rw [if_pos hD]
      exact ih d (b - Vec2.distance d pos) (by linarith) (by linarith)
    · rw [if_neg hD]
      intro hfalse
      simp at hfalse

/-- When the corridor's remaining length is at least the budget, the arc
length travelled along the corridor is exactly the budget. -/
theorem arcTraveled_full (path : List Vec2) (pos : Vec2) (b : ℝ) (hb : 0 ≤ b)
    (hrem : b ≤ remLength pos path) : arcTraveled path pos b = b := by
  simp only [arcTraveled]
  rcases hr : (consume path pos b).1 with _ | ⟨d, rest⟩
  · have h0 : (consume path pos b).2.2 = 0 := consume_full path pos b hb hrem hr
    simp [hr, h0]
  · simp [hr]

/-- Evaluation: two-entry k-nearest query, first entry at least as close. -/
theorem k_nearest_two (e0 e1 : SpatialEntry) (p : Vec2)
    (h : Vec2.distance e0.1 p ≤ Vec2.distance e1.1 p) :
    k_nearest_neighbour [e0, e1] p 2 = [e0, e1] := by
  simp [k_nearest_neighbour, sortByDist, insertByDist, h]

/-- Evaluation: two-entry k-nearest query, second entry strictly closer. -/
theorem k_nearest_two_rev (e0 e1 : SpatialEntry) (p : Vec2)
    (h : ¬ Vec2.distance e0.1 p ≤ Vec2.distance e1.1 p) :
    k_nearest_neighbour [e0, e1] p 2 = [e1, e0] := by
  simp [k_nearest_neighbour, sortByDist, insertByDist, h]

/-- Evaluation: single-entry k-nearest query. -/
theorem k_nearest_one (e : SpatialEntry) (p : Vec2) (k : ℕ) (hk : k ≠ 0) :
    k_nearest_neighbour [e] p k = [e] := by
  simp [k_nearest_neighbour, sortByDist, insertByDist]
  cases k with
  | zero => exact absurd rfl hk
  | succ n => simp [List.take]

/-! ### C1 theorems -/

/-- C1 (amended): in one movement tick with `Δt ≥ 0` and `speed ≥ 0`, the
displacement *along the corridor* (the position after waypoint consumption
and the partial advance, before the collision-avoidance offset is added)
never exceeds `speed × Δt`, and when the corridor's remaining length is at
least `speed × Δt` the full budget is consumed advancing along the
corridor.  (The collision-avoidance offset added afterwards can push the
total displacement of the tick beyond `speed × Δt`; see the
counterexample.) -/
theorem C1_corridor_budget (pf : Pathfind) (nv : Nav) (pos : Vec2) (dt : ℝ)
    (hs : 0 ≤ nv.speed) (hdt : 0 ≤ dt) :
    Vec2.distance (corridorMove pf.path pos (nv.speed * dt)).2.1 pos
        ≤ nv.speed * dt ∧
      (nv.speed * dt ≤ remLength pos pf.path →
        arcTraveled pf.path pos (nv.speed * dt) = nv.speed * dt) := by
  have hb : 0 ≤ nv.speed * dt := mul_nonneg hs hdt
  exact ⟨corridorMove_bound pf.path pos _ hb,
    fun h => arcTraveled_full pf.path pos _ hb h⟩

/-- Witness for C1's amended theorem at a concrete input. -/
theorem C1_witness :
    0 ≤ c1nav.speed ∧ 0 ≤ (1 : ℝ) ∧
      Vec2.distance (corridorMove c1pf.path ⟨0, 0⟩ (c1nav.speed * 1)).2.1 ⟨0, 0⟩
        ≤ c1nav.speed * 1 :=
  ⟨by norm_num [c1nav], by norm_num,
    (C1_corridor_budget c1pf c1nav ⟨0, 0⟩ 1 (by norm_num [c1nav])
      (by norm_num)).1⟩

/-- Evaluation: the consumption loop does not reach the waypoint `(100,0)`
from the origin on a budget of 50. -/
theorem c1_consume_eval :
    consume [⟨100, 0⟩] ⟨0, 0⟩ (c1nav.speed * 1) = ([⟨100, 0⟩], ⟨0, 0⟩, 50) := by
  have hD : Vec2.distance ⟨100, 0⟩ (⟨0, 0⟩ : Vec2) = 100 := by
    rw [Vec2.distance_mk]; exact sqrt_eval (by norm_num) (by norm_num)
  simp only [consume, hD]
  rw [if_neg (by norm_num [c1nav])]
  norm_num [c1nav]

/-- Evaluation: the corridor advance moves the agent halfway to `(100,0)`. -/
theorem c1_corridor_eval :
    corridorMove [⟨100, 0⟩] ⟨0, 0⟩ (c1nav.speed * 1) = ([⟨100, 0⟩], ⟨50, 0⟩, 50) := by
  have hsub : (⟨100, 0⟩ : Vec2) - ⟨0, 0⟩ = ⟨100, 0⟩ := by ext <;> norm_num
  have hL : Real.sqrt ((100 : ℝ) ^ 2 + (0 : ℝ) ^ 2) = 100 :=
    sqrt_eval (by norm_num) (by norm_num)
  have hnorm : ((⟨100, 0⟩ : Vec2) - ⟨0, 0⟩).norm_or_zero = ⟨1, 0⟩ := by
    rw [hsub, Vec2.norm_or_zero_eval hL (by norm_num)]
    ext <;> norm_num
  simp only [corridorMove, c1_consume_eval, hnorm]
  norm_num

/-- Evaluation: the closest-obstacle query from the lookahead point
`(4.2, 0)` finds the obstacle at `(4.2, 30)` (the agent itself is the
nearest entry and is skipped by the `get(1)` read). -/
theorem c1_fco (a2 : Vec2) :
    find_closest_obstacle 0 ⟨0, 0⟩ ⟨4.2, 0⟩ a2 c1tree = some ⟨4.2, 30⟩ := by
  have d0 : Vec2.distance ⟨0, 0⟩ (⟨4.2, 0⟩ : Vec2) = 4.2 := by
    rw [Vec2.distance_mk]; exact sqrt_eval (by norm_num) (by norm_num)
  have d1 : Vec2.distance ⟨4.2, 30⟩ (⟨4.2, 0⟩ : Vec2) = 30 := by
    rw [Vec2.distance_mk]; exact sqrt_eval (by norm_num) (by norm_num)
  have hcmp : Vec2.distance (⟨0, 0⟩ : Vec2) ⟨4.2, 0⟩
      ≤ Vec2.distance (⟨4.2, 30⟩ : Vec2) ⟨4.2, 0⟩ := by
    rw [d0, d1]; norm_num
  have hkn : k_nearest_neighbour c1tree ⟨4.2, 0⟩ 2
      = [(⟨0, 0⟩, some 0), (⟨4.2, 30⟩, some 1)] :=
    k_nearest_two (⟨0, 0⟩, some 0) (⟨4.2, 30⟩, some 1) ⟨4.2, 0⟩ hcmp
  simp only [find_closest_obstacle, hkn]
  simp only [List.getElem?_cons_succ, List.getElem?_cons_zero]
  rw [if_pos]
  refine ⟨by norm_num, ?_⟩
  rw [d1, COLLISION_RADIUS]
  norm_num

/-- Evaluation: collision avoidance from the advanced position pushes the
agent straight down (away from the obstacle above the lookahead point). -/
theorem c1_avoid_eval :
    collision_avoidance 0 ⟨50, 0⟩ ⟨0, 0⟩ c1tree = ⟨0, -1⟩ := by
  have hsub : (⟨50, 0⟩ : Vec2) - ⟨0, 0⟩ = ⟨50, 0⟩ := by ext <;> norm_num
  have hL : Real.sqrt ((50 : ℝ) ^ 2 + (0 : ℝ) ^ 2) = 50 :=
    sqrt_eval (by norm_num) (by norm_num)
  have hdv : ((⟨50, 0⟩ : Vec2) - ⟨0, 0⟩).norm_or_zero = ⟨1, 0⟩ := by
    rw [hsub, Vec2.norm_or_zero_eval hL (by norm_num)]
    ext <;> norm_num
  have hahead : (⟨0, 0⟩ : Vec2) + (⟨1, 0⟩ : Vec2) * MAX_SEE_AHEAD = ⟨4.2, 0⟩ := by
    simp only [MAX_SEE_AHEAD]
    ext <;> norm_num
  simp only [collision_avoidance, hdv, hahead, c1_fco]
  have hsub2 : (⟨4.2, 0⟩ : Vec2) - ⟨4.2, 30⟩ = ⟨0, -30⟩ := by ext <;> norm_num
  have hL2 : Real.sqrt ((0 : ℝ) ^ 2 + (-30 : ℝ) ^ 2) = 30 :=
    sqrt_eval (by norm_num) (by norm_num)
  rw [hsub2, Vec2.norm_or_zero_eval hL2 (by norm_num)]
  ext <;> norm_num

/-- Evaluation: the full movement tick of the C1 scenario lands at
`(50, -44)`. -/
theorem c1_navStep_eval :
    (navStep c1tree 0 ⟨0, 0⟩ c1pf c1nav 1).1 = ⟨50, -44⟩ := by
  have hpath : c1pf.path = [⟨100, 0⟩] := rfl
  simp only [navStep, hpath, List.isEmpty_cons, Bool.false_eq_true, if_false,
    c1_corridor_eval, c1_avoid_eval]
  simp only [MAX_AVOID_FORCE]
  ext <;> norm_num

/-- C1 (counterexample to the claim as stated): with an obstacle near the
path, the collision-avoidance offset (scaled by the leftover budget) is
added on top of the full corridor advance, so the tick's total displacement
exceeds `speed × Δt`: here `speed × Δt = 50` but the agent is displaced by
`√4436 ≈ 66.6`. -/
theorem C1_counterexample :
    c1nav.speed * 1
      < Vec2.distance (navStep c1tree 0 ⟨0, 0⟩ c1pf c1nav 1).1 ⟨0, 0⟩ := by
  rw [c1_navStep_eval]
  have hd : Vec2.distance ⟨50, -44⟩ (⟨0, 0⟩ : Vec2) = Real.sqrt 4436 := by
    rw [Vec2.distance_mk]
    norm_num
  rw [hd]
  have hsp : c1nav.speed * 1 = (50 : ℝ) := by norm_num [c1nav]
  rw [hsp]
  have h1 : Real.sqrt 2500 = 50 := sqrt_eval (by norm_num) (by norm_num)
  rw [← h1]
  exact Real.sqrt_lt_sqrt (by norm_num) (by norm_num)

@[simp] theorem Vec2.zero_mulr (r : ℝ) : ((0 : Vec2) * r) = 0 := by
  ext <;> simp

@[simp] theorem Vec2.add_zero (v : Vec2) : v + 0 = v := by
  ext <;> simp

@[simp] theorem Vec2.zero_add (v : Vec2) : 0 + v = v := by
  ext <;> simp

/-- With only one entry in the spatial index, `collision_avoidance` finds
no second-nearest neighbour and contributes nothing. -/
theorem collision_avoidance_single (self_id : ℕ) (dp cp : Vec2)
    (e : SpatialEntry) : collision_avoidance self_id dp cp [e] = 0 := by
  have hk : k_nearest_neighbour [e]
      (cp + (dp - cp).norm_or_zero * MAX_SEE_AHEAD) 2 = [e] :=
    k_nearest_one e _ 2 (by norm_num)
  simp only [collision_avoidance, find_closest_obstacle, hk,
    List.getElem?_cons_succ, List.getElem?_nil]

/-! ### C7 evaluation -/

/-- Evaluation: the planning step of the straight-corridor scenario stores
the corridor `[(100, 0)]` and leaves `done = false`. -/
theorem c7_plan :
    generate_paths_step w100 ⟨0, 0⟩ c7pf (some c7nav) 0 = (c1pf, some c1nav) :=
  rfl

/-- Evaluation: the first movement tick advances the agent to `(50, 0)` and
changes neither the corridor nor the `done` flag. -/
theorem c7_tick1 :
    navStep c7tree 0 ⟨0, 0⟩ c1pf c1nav 1 = (⟨50, 0⟩, c1pf, c1nav) := by
  have hpath : c1pf.path = [⟨100, 0⟩] := rfl
  have hca : collision_avoidance 0 ⟨50, 0⟩ ⟨0, 0⟩ c7tree = 0 :=
    collision_avoidance_single 0 ⟨50, 0⟩ ⟨0, 0⟩ (⟨0, 0⟩, some 0)
  simp only [navStep, hpath, List.isEmpty_cons, Bool.false_eq_true, if_false,
    c1_corridor_eval, hca]
  simp only [Vec2.zero_mulr, Vec2.add_zero]
  rfl

/-- Evaluation: the consumption loop of the second tick reaches `(100, 0)`
exactly, emptying the corridor with zero leftover budget. -/
theorem c7_consume2 :
    consume [⟨100, 0⟩] ⟨50, 0⟩ (c1nav.speed * 1) = ([], ⟨100, 0⟩, 0) := by
  have hD : Vec2.distance ⟨100, 0⟩ (⟨50, 0⟩ : Vec2) = 50 := by
    rw [Vec2.distance_mk]; exact sqrt_eval (by norm_num) (by norm_num)
  simp only [consume, hD]
  rw [if_pos (by norm_num [c1nav])]
  norm_num [c1nav]

/-- Evaluation: the second tick's corridor advance ends at `(100, 0)` with
an empty corridor. -/
theorem c7_corridor2 :
    corridorMove [⟨100, 0⟩] ⟨50, 0⟩ (c1nav.speed * 1) = ([], ⟨100, 0⟩, 0) := by
  simp only [corridorMove, c7_consume2]

/-- Evaluation: the second movement tick arrives: position `(100, 0)`,
empty corridor, `done = true`. -/
theorem c7_tick2 :
    navStep c7tree 0 ⟨50, 0⟩ c1pf c1nav 1
      = (⟨100, 0⟩, { c1pf with path := [] }, { c1nav with done := true }) := by
  have hpath : c1pf.path = [⟨100, 0⟩] := rfl
  have hca : collision_avoidance 0 ⟨100, 0⟩ ⟨50, 0⟩ c7tree = 0 :=
    collision_avoidance_single 0 ⟨100, 0⟩ ⟨50, 0⟩ (⟨0, 0⟩, some 0)
  simp only [navStep, hpath, List.isEmpty_cons, Bool.false_eq_true, if_false,
    c7_corridor2, hca]
  simp only [Vec2.zero_mulr, Vec2.add_zero, List.isEmpty_nil, if_true]

/-- C7: concrete straight-corridor scenario.  Agent at `(0,0)`, static
target `(100,0)`, a mesh whose query returns the single-waypoint corridor
`[(100,0)]`, speed 50, tick `Δt = 1`, no other colliders: the planning step
stores the corridor with `done = false`; after movement tick 1 the position
is `(50,0)` with corridor and `done = false` unchanged; after movement tick
2 the position is `(100,0)`, the corridor is empty and `done = true`. -/
theorem C7_straight_corridor :
    generate_paths_step w100 ⟨0, 0⟩ c7pf (some c7nav) 0 = (c1pf, some c1nav) ∧
      navStep c7tree 0 ⟨0, 0⟩ c1pf c1nav 1 = (⟨50, 0⟩, c1pf, c1nav) ∧
      navStep c7tree 0 ⟨50, 0⟩ c1pf c1nav 1
        = (⟨100, 0⟩, { c1pf with path := [] }, { c1nav with done := true }) :=
  ⟨c7_plan, c7_tick1, c7_tick2⟩

/-! ### C3: separation force -/

theorem Vec2.sub_eq_zero_iff {a b : Vec2} : a - b = 0 ↔ a = b := by
  constructor
  · intro h
    have hx : a.x - b.x = 0 := by simpa using congrArg Vec2.x h
    have hy : a.y - b.y = 0 := by simpa using congrArg Vec2.y h
    ext
    · linarith
    · linarith
  · intro h
    subst h
    ext <;> simp

theorem Vec2.mk_ne_zero_left {a b : ℝ} (h : a ≠ 0) : (⟨a, b⟩ : Vec2) ≠ 0 :=
  fun h0 => h (by simpa using congrArg Vec2.x h0)

theorem Vec2.length_eval {a b L : ℝ} (hL : 0 ≤ L) (h : a ^ 2 + b ^ 2 = L ^ 2) :
    Vec2.length ⟨a, b⟩ = L := by
  rw [Vec2.length_mk]
  exact sqrt_eval hL h

theorem Vec2.distance_eval {a b c d L : ℝ} (hL : 0 ≤ L)
    (h : (a - c) ^ 2 + (b - d) ^ 2 = L ^ 2) :
    Vec2.distance ⟨a, b⟩ ⟨c, d⟩ = L := by
  rw [Vec2.distance_mk]
  exact sqrt_eval hL h

theorem Vec2.length_divr (v : Vec2) (r : ℝ) : (v / r).length = v.length / |r| := by
  have h : v / r = v * (1 / r) := by
    ext <;> simp <;> ring
  rw [h, Vec2.length_mulr, abs_one_div]
  ring

theorem Vec2.add_assoc (a b c : Vec2) : a + b + c = a + (b + c) := by
  ext <;> simp <;> ring

/-- Each neighbour's loop contribution `delta / (|delta| / R)` has constant
magnitude `R = SEPARATION_RADIUS`, regardless of the neighbour's distance. -/
theorem sepContrib_length (pos npos : Vec2) (h : npos ≠ pos) :
    (sepContrib pos npos).length = SEPARATION_RADIUS := by
  have hne : npos - pos ≠ 0 := fun h0 => h (Vec2.sub_eq_zero_iff.mp h0)
  have hL : 0 < (npos - pos).length := Vec2.length_pos hne
  simp only [sepContrib]
  rw [Vec2.length_divr]
  rw [abs_of_pos (by rw [SEPARATION_RADIUS]; positivity)]
  rw [div_div_eq_mul_div, mul_comm, mul_div_assoc, div_self (ne_of_gt hL),
    mul_one]

/-- The accumulation loop of `separation_force` computes the sum of the
contributions of the valid (other-entity) entries and their count. -/
theorem sepLoop_eq (self_id : ℕ) (pos : Vec2) (l : List SpatialEntry)
    (f0 : Vec2) (c0 : ℝ) :
    sepLoop self_id pos l (f0, c0)
      = (f0 + vsum ((l.filter (sepValid self_id)).map fun e => sepContrib pos e.1),
         c0 + ((l.filter (sepValid self_id)).length : ℝ)) := by
  induction l generalizing f0 c0 with
  | nil => simp [sepLoop, vsum]
  | cons e rest ih =>
    obtain ⟨npos, ent⟩ := e
    rcases ent with _ | i
    · simp only [sepLoop, List.filter_cons]
      have hval : sepValid self_id (npos, none) = false := rfl
      rw [hval]
      simpa using ih f0 c0
    · by_cases hi : i ≠ self_id
      · have hval : sepValid self_id (npos, some i) = true := by
          simp [sepValid, hi]
        simp only [sepLoop, List.filter_cons, hval]
        rw [if_pos hi]
        rw [ih (f0 + sepContrib pos npos) (c0 + 1)]
        refine Prod.ext ?_ ?_
        · simp only [List.map_cons, vsum]
          rw [Vec2.add_assoc]
        · push_cast [List.length_cons]
          ring
      · have hval : sepValid self_id (npos, some i) = false := by
          simp [sepValid]
          simpa using hi
        simp only [sepLoop, List.filter_cons, hval]
        rw [if_neg hi]
        simpa using ih f0 c0

/-- `separation_force` characterised: the averaged (and sign-flipped) sum of
the per-neighbour contributions over the valid within-radius entries, zero
when there are none. -/
theorem separation_force_eq (self_id : ℕ) (pos : Vec2)
    (tree : List SpatialEntry) :
    separation_force self_id pos tree
      = if ((within_distance tree pos SEPARATION_RADIUS).filter
            (sepValid self_id)).length = 0
        then 0
        else vsum (((within_distance tree pos SEPARATION_RADIUS).filter
              (sepValid self_id)).map fun e => sepContrib pos e.1)
          / (-((((within_distance tree pos SEPARATION_RADIUS).filter
              (sepValid self_id)).length : ℝ))) := by
  have hacc := sepLoop_eq self_id pos
    (within_distance tree pos SEPARATION_RADIUS) 0 0
  simp only [separation_force, hacc]
  by_cases h0 : ((within_distance tree pos SEPARATION_RADIUS).filter
      (sepValid self_id)).length = 0
  · rw [if_pos h0]
    have hl : (within_distance tree pos SEPARATION_RADIUS).filter
        (sepValid self_id) = [] := List.length_eq_zero.mp h0
    rw [if_neg]
    · simp [hl, vsum]
    · rw [h0]
      norm_num
  · rw [if_neg h0]
    have hpos : (0 : ℝ) < (((within_distance tree pos SEPARATION_RADIUS).filter
        (sepValid self_id)).length : ℝ) := by
      exact_mod_cast Nat.pos_of_ne_zero h0
    rw [if_pos (by linarith)]
    simp

/-- C3 (amended): every within-radius neighbour other than the agent
contributes a repulsion vector of *constant* magnitude `SEPARATION_RADIUS`
(the `delta / (|delta|/R)` weighting cancels the distance, so a closer
neighbour does not repel harder); the contributions are summed, divided by
the negated neighbour count (averaged and flipped away from the
neighbours); and the result is zero when no other-entity neighbour is
within the radius. -/
theorem C3_separation (self_id : ℕ) (pos : Vec2) (tree : List SpatialEntry) :
    ((within_distance tree pos SEPARATION_RADIUS).filter (sepValid self_id) = []
        → separation_force self_id pos tree = 0) ∧
      ((within_distance tree pos SEPARATION_RADIUS).filter (sepValid self_id) ≠ []
        → separation_force self_id pos tree
          = vsum (((within_distance tree pos SEPARATION_RADIUS).filter
                (sepValid self_id)).map fun e => sepContrib pos e.1)
            / (-((((within_distance tree pos SEPARATION_RADIUS).filter
                (sepValid self_id)).length : ℝ)))) ∧
      ∀ npos : Vec2, npos ≠ pos
        → (sepContrib pos npos).length = SEPARATION_RADIUS := by
  refine ⟨?_, ?_, fun npos h => sepContrib_length pos npos h⟩
  · intro hL
    rw [separation_force_eq, if_pos (by rw [hL]; rfl)]
  · intro hL
    rw [separation_force_eq,
      if_neg (fun h => hL (List.length_eq_zero.mp h))]

/-- Witness for C3's amended theorem at concrete inputs. -/
theorem C3_witness :
    separation_force 0 ⟨0, 0⟩ [] = 0 ∧
      (⟨10, 0⟩ : Vec2) ≠ ⟨0, 0⟩ ∧
      (sepContrib ⟨0, 0⟩ ⟨10, 0⟩).length = SEPARATION_RADIUS :=
  ⟨(C3_separation 0 ⟨0, 0⟩ []).1 rfl,
    fun h => by have := congrArg Vec2.x h; norm_num at this,
    (C3_separation 0 ⟨0, 0⟩ []).2.2 ⟨10, 0⟩
      (fun h => by have := congrArg Vec2.x h; norm_num at this)⟩

/-- C3 (counterexample to the claim as stated): the neighbour at distance
10 and the neighbour at distance 20 contribute repulsions of the *same*
magnitude (`SEPARATION_RADIUS = 38`), so a strictly closer neighbour does
not contribute a strictly larger repulsion magnitude. -/
theorem C3_counterexample :
    Vec2.distance ⟨10, 0⟩ (⟨0, 0⟩ : Vec2) < Vec2.distance ⟨0, 20⟩ (⟨0, 0⟩ : Vec2) ∧
      ¬ ((sepContrib ⟨0, 0⟩ ⟨0, 20⟩).length
          < (sepContrib ⟨0, 0⟩ ⟨10, 0⟩).length) := by
  constructor
  · rw [Vec2.distance_eval (by norm_num) (show ((10:ℝ) - 0) ^ 2 + (0 - 0) ^ 2
        = 10 ^ 2 by norm_num),
      Vec2.distance_eval (by norm_num) (show ((0:ℝ) - 0) ^ 2 + (20 - 0) ^ 2
        = 20 ^ 2 by norm_num)]
    norm_num
  · rw [sepContrib_length ⟨0, 0⟩ ⟨0, 20⟩
        (fun h => by have := congrArg Vec2.y h; norm_num at this),
      sepContrib_length ⟨0, 0⟩ ⟨10, 0⟩
        (fun h => by have := congrArg Vec2.x h; norm_num at this)]
    exact lt_irrefl _

/-! ### C4 and C5: queueing scenario evaluation -/

/-- Evaluation: both entries of `qtree` lie within the separation radius of
the origin. -/
theorem q_within : within_distance qtree ⟨0, 0⟩ SEPARATION_RADIUS
    = [(⟨0, 0⟩, some 0), (⟨30, 0⟩, some 1)] := by
  have d0 : Vec2.distance ⟨0, 0⟩ (⟨0, 0⟩ : Vec2) = 0 := Vec2.distance_self _
  have d1 : Vec2.distance ⟨30, 0⟩ (⟨0, 0⟩ : Vec2) = 30 :=
    Vec2.distance_eval (by norm_num) (by norm_num)
  simp only [qtree, within_distance, d0, d1, SEPARATION_RADIUS]
  rw [if_pos (by norm_num), if_pos (by norm_num)]

/-- Evaluation: the separation force of the queue scenario points away from
the neighbour with magnitude 38. -/
theorem q_sep : separation_force 0 ⟨0, 0⟩ qtree = ⟨-38, 0⟩ := by
  have hfil : (within_distance qtree ⟨0, 0⟩ SEPARATION_RADIUS).filter (sepValid 0)
      = [(⟨30, 0⟩, some 1)] := by
    rw [q_within]
    simp [sepValid]
  have hc : sepContrib ⟨0, 0⟩ ⟨30, 0⟩ = ⟨38, 0⟩ := by
    have hsub : (⟨30, 0⟩ : Vec2) - ⟨0, 0⟩ = ⟨30, 0⟩ := by ext <;> norm_num
    have hL : Vec2.length ⟨30, 0⟩ = 30 :=
      Vec2.length_eval (by norm_num) (by norm_num)
    simp only [sepContrib, hsub, hL, SEPARATION_RADIUS]
    ext <;> norm_num
  rw [separation_force_eq, hfil]
  rw [if_neg (by norm_num)]
  simp only [List.map_cons, List.map_nil, hc, vsum, List.length_cons,
    List.length_nil]
  simp only [Vec2.add_zero]
  ext <;> norm_num

/-- Evaluation: with the neighbour absent there is no separation force. -/
theorem q_sep1 : separation_force 0 ⟨0, 0⟩ qtree1 = 0 := by
  have d0 : Vec2.distance ⟨0, 0⟩ (⟨0, 0⟩ : Vec2) = 0 := Vec2.distance_self _
  have hwd : within_distance qtree1 ⟨0, 0⟩ SEPARATION_RADIUS
      = [(⟨0, 0⟩, some 0)] := by
    simp only [qtree1, within_distance, d0, SEPARATION_RADIUS]
    rw [if_pos (by norm_num)]
  rw [separation_force_eq, hwd]
  rw [if_pos (by simp [sepValid])]

/-- Evaluation: the neighbour at `(30,0)` is found ahead of the agent
(within `AVOID_RADIUS` of the lookahead point `(54.2, 0)`). -/
theorem q_ahead : get_neighbour_ahead 0 ⟨0, 0⟩ ⟨1, 0⟩ qtree = some ⟨30, 0⟩ := by
  have hahead : (⟨0, 0⟩ : Vec2) + (⟨1, 0⟩ : Vec2) * MAX_QUEUE_AHEAD
      = ⟨54.2, 0⟩ := by
    simp only [MAX_QUEUE_AHEAD]
    ext <;> norm_num
  have d0 : Vec2.distance ⟨0, 0⟩ (⟨54.2, 0⟩ : Vec2) = 54.2 :=
    Vec2.distance_eval (by norm_num) (by norm_num)
  have d1 : Vec2.distance ⟨30, 0⟩ (⟨54.2, 0⟩ : Vec2) = 24.2 :=
    Vec2.distance_eval (by norm_num) (by norm_num)
  have hq : qtree = [(⟨0, 0⟩, some 0), (⟨30, 0⟩, some 1)] := rfl
  have hkn : k_nearest_neighbour qtree ⟨54.2, 0⟩ 2
      = [(⟨30, 0⟩, some 1), (⟨0, 0⟩, some 0)] := by
    rw [hq]
    apply k_nearest_two_rev
    rw [d0, d1]
    norm_num
  simp only [get_neighbour_ahead, hahead, hkn, neighbourMatch, d1]
  rw [if_pos (by norm_num [AVOID_RADIUS])]

/-- Evaluation: with the neighbour absent nothing is found ahead. -/
theorem q_ahead1 : get_neighbour_ahead 0 ⟨0, 0⟩ ⟨1, 0⟩ qtree1 = none := by
  have hkn : ∀ p : Vec2, k_nearest_neighbour qtree1 p 2 = [(⟨0, 0⟩, some 0)] :=
    fun p => k_nearest_one (⟨0, 0⟩, some 0) p 2 (by norm_num)
  simp only [get_neighbour_ahead, hkn, neighbourMatch]
  rw [if_neg (by norm_num)]

/-- Evaluation: the seek component vanishes when the velocity already
points at the target. -/
theorem q_seek : seekSteering ⟨100, 0⟩ ⟨0, 0⟩ ⟨1, 0⟩ = 0 := by
  have hsub : (⟨100, 0⟩ : Vec2) - ⟨0, 0⟩ = ⟨100, 0⟩ := by ext <;> norm_num
  have hL : Real.sqrt ((100 : ℝ) ^ 2 + (0 : ℝ) ^ 2) = 100 :=
    sqrt_eval (by norm_num) (by norm_num)
  have hdes : ((⟨100, 0⟩ : Vec2) - ⟨0, 0⟩).norm_or_zero = ⟨1, 0⟩ := by
    rw [hsub, Vec2.norm_or_zero_eval hL (by norm_num)]
    ext <;> norm_num
  have hzero : (⟨1, 0⟩ : Vec2) - ⟨1, 0⟩ = 0 := by ext <;> norm_num
  have hnz : (0 : Vec2).norm_or_zero = 0 := by
    rw [Vec2.norm_or_zero, if_pos Vec2.length_zero]
  simp only [seekSteering, hdes, hzero, hnz, Vec2.zero_mulr]

/-- Evaluation: capped steering of the queue scenario: seek is zero,
separation is `(-38, 0)`, normalized and scaled to `MAX_FORCE`. -/
theorem q_cap : cappedSteering 0 ⟨100, 0⟩ ⟨0, 0⟩ ⟨1, 0⟩ qtree = ⟨-3.6, 0⟩ := by
  have hsum : seekSteering ⟨100, 0⟩ ⟨0, 0⟩ ⟨1, 0⟩ + separation_force 0 ⟨0, 0⟩ qtree
      = ⟨-38, 0⟩ := by
    rw [q_seek, q_sep, Vec2.zero_add]
  have hne : (⟨-38, 0⟩ : Vec2) ≠ 0 := Vec2.mk_ne_zero_left (by norm_num)
  have hL : Real.sqrt ((-38 : ℝ) ^ 2 + (0 : ℝ) ^ 2) = 38 :=
    sqrt_eval (by norm_num) (by norm_num)
  simp only [cappedSteering, hsum]
  rw [if_neg hne, Vec2.norm_or_zero_eval hL (by norm_num), MAX_FORCE]
  ext <;> norm_num

/-- Evaluation: with the neighbour absent the combined steering is zero and
stays zero (the cap branch is skipped). -/
theorem q_cap1 : cappedSteering 0 ⟨100, 0⟩ ⟨0, 0⟩ ⟨1, 0⟩ qtree1 = 0 := by
  have hsum : seekSteering ⟨100, 0⟩ ⟨0, 0⟩ ⟨1, 0⟩
      + separation_force 0 ⟨0, 0⟩ qtree1 = 0 := by
    rw [q_seek, q_sep1, Vec2.zero_add]
  simp only [cappedSteering, hsum]
  simp

/-- Evaluation: the final steering of the queue scenario is the capped
steering plus the brake — total `(-39.72, 0)`, magnitude far above
`MAX_FORCE`. -/
theorem q_final : finalSteering 0 ⟨100, 0⟩ ⟨0, 0⟩ ⟨1, 0⟩ qtree = ⟨-39.72, 0⟩ := by
  simp only [finalSteering, q_ahead, q_cap, brakeVec, q_sep]
  ext <;> norm_num

/-- Evaluation: with the neighbour absent the final steering is zero. -/
theorem q_final1 : finalSteering 0 ⟨100, 0⟩ ⟨0, 0⟩ ⟨1, 0⟩ qtree1 = 0 := by
  simp only [finalSteering, q_ahead1, q_cap1]

/-- Evaluation: the queue neighbour is within `MAX_QUEUE_RADIUS`, so the
velocity is damped to `0.3` of itself. -/
theorem q_damped : dampedVelocity 0 ⟨0, 0⟩ ⟨1, 0⟩ qtree = ⟨0.3, 0⟩ := by
  have d : Vec2.distance ⟨0, 0⟩ (⟨30, 0⟩ : Vec2) = 30 :=
    Vec2.distance_eval (by norm_num) (by norm_num)
  simp only [dampedVelocity, q_ahead, d]
  rw [if_pos (by norm_num [MAX_QUEUE_RADIUS])]
  ext <;> norm_num

/-- Evaluation: the resulting velocity with the queue neighbour present is
the unit vector `(-1, 0)`. -/
theorem q_af : apply_forces 0 ⟨100, 0⟩ ⟨0, 0⟩ ⟨1, 0⟩ qtree = ⟨-1, 0⟩ := by
  have hsum : dampedVelocity 0 ⟨0, 0⟩ ⟨1, 0⟩ qtree
      + finalSteering 0 ⟨100, 0⟩ ⟨0, 0⟩ ⟨1, 0⟩ qtree = ⟨-39.42, 0⟩ := by
    rw [q_damped, q_final]
    ext <;> norm_num
  have hL : Real.sqrt ((-39.42 : ℝ) ^ 2 + (0 : ℝ) ^ 2) = 39.42 :=
    sqrt_eval (by norm_num) (by norm_num)
  simp only [apply_forces, hsum]
  rw [Vec2.norm_or_zero_eval hL (by norm_num)]
  ext <;> norm_num

/-- Evaluation: the resulting velocity with the neighbour absent is the
unit vector `(1, 0)`. -/
theorem q_af1 : apply_forces 0 ⟨100, 0⟩ ⟨0, 0⟩ ⟨1, 0⟩ qtree1 = ⟨1, 0⟩ := by
  have hsum : dampedVelocity 0 ⟨0, 0⟩ ⟨1, 0⟩ qtree1
      + finalSteering 0 ⟨100, 0⟩ ⟨0, 0⟩ ⟨1, 0⟩ qtree1 = ⟨1, 0⟩ := by
    simp only [dampedVelocity, q_ahead1, q_final1, Vec2.add_zero]
  have hL : Real.sqrt ((1 : ℝ) ^ 2 + (0 : ℝ) ^ 2) = 1 :=
    sqrt_eval (by norm_num) (by norm_num)
  simp only [apply_forces, hsum]
  rw [Vec2.norm_or_zero_eval hL (by norm_num)]
  ext <;> norm_num

/-! ### C4 theorems -/

/-- C4 (amended): when a neighbour lies within the lookahead avoidance
radius (so `get_neighbour_ahead` returns it) and within the tighter queue
radius of the current position, `apply_forces` damps the *velocity term of
its final sum* to `0.3` of the current velocity — strictly smaller in
magnitude whenever the velocity is non-zero — but the *returned* velocity
is normalized, so its magnitude is `1` (or `0`), not strictly smaller than
with the neighbour absent. -/
theorem C4_queue_damping (self_id : ℕ)
    (target_pos current_pos current_velocity ob : Vec2)
    (tree : List SpatialEntry)
    (hob : get_neighbour_ahead self_id current_pos current_velocity tree
      = some ob)
    (hq : Vec2.distance current_pos ob ≤ MAX_QUEUE_RADIUS)
    (hv : current_velocity ≠ 0) :
    (dampedVelocity self_id current_pos current_velocity tree).length
        < current_velocity.length ∧
      (apply_forces self_id target_pos current_pos current_velocity tree = 0 ∨
        (apply_forces self_id target_pos current_pos current_velocity
            tree).length = 1) := by
  constructor
  · simp only [dampedVelocity, hob]
    rw [if_pos hq, Vec2.length_mulr, abs_of_pos (by norm_num)]
    have h0 : 0 < current_velocity.length := Vec2.length_pos hv
    nlinarith
  · simp only [apply_forces]
    exact Vec2.norm_or_zero_cases _

/-- Witness for C4's amended theorem at the concrete queue scenario. -/
theorem C4_witness :
    (⟨1, 0⟩ : Vec2) ≠ 0 ∧
      (dampedVelocity 0 ⟨0, 0⟩ ⟨1, 0⟩ qtree).length < (⟨1, 0⟩ : Vec2).length :=
  ⟨Vec2.mk_ne_zero_left (by norm_num),
    (C4_queue_damping 0 ⟨100, 0⟩ ⟨0, 0⟩ ⟨1, 0⟩ ⟨30, 0⟩ qtree q_ahead
      (by rw [Vec2.distance_eval (by norm_num)
            (show ((0:ℝ) - 30) ^ 2 + (0 - 0) ^ 2 = 30 ^ 2 by norm_num),
          MAX_QUEUE_RADIUS]
          norm_num)
      (Vec2.mk_ne_zero_left (by norm_num))).1⟩

/-- C4 (counterexample to the claim as stated): in the queue scenario the
neighbour at `(30, 0)` is within both radii, yet the magnitude of the
returned velocity is `1` with and without the neighbour — `apply_forces`
ends in `normalize_or_zero`, so its magnitude is not strictly reduced. -/
theorem C4_counterexample :
    get_neighbour_ahead 0 ⟨0, 0⟩ ⟨1, 0⟩ qtree = some ⟨30, 0⟩ ∧
      Vec2.distance ⟨0, 0⟩ (⟨30, 0⟩ : Vec2) ≤ MAX_QUEUE_RADIUS ∧
      ¬ ((apply_forces 0 ⟨100, 0⟩ ⟨0, 0⟩ ⟨1, 0⟩ qtree).length
          < (apply_forces 0 ⟨100, 0⟩ ⟨0, 0⟩ ⟨1, 0⟩ qtree1).length) := by
  refine ⟨q_ahead, ?_, ?_⟩
  · rw [Vec2.distance_eval (by norm_num)
        (show ((0:ℝ) - 30) ^ 2 + (0 - 0) ^ 2 = 30 ^ 2 by norm_num),
      MAX_QUEUE_RADIUS]
    norm_num
  · rw [q_af, q_af1,
      Vec2.length_eval (by norm_num)
        (show ((-1:ℝ)) ^ 2 + (0:ℝ) ^ 2 = 1 ^ 2 by norm_num),
      Vec2.length_eval (by norm_num)
        (show ((1:ℝ)) ^ 2 + (0:ℝ) ^ 2 = 1 ^ 2 by norm_num)]
    exact lt_irrefl 1

/-! ### C5 theorems -/

/-- C5 (amended): `apply_forces` sums only the seek and separation
components before the magnitude cap (the capped vector is zero or has
magnitude exactly `MAX_FORCE`); when no neighbour is ahead nothing more is
added, but when a neighbour is ahead the queueing brake is added *after*
the cap, so the final steering is the capped vector plus the brake and its
magnitude is no longer capped. -/
theorem C5_cap_order (self_id : ℕ)
    (target_pos current_pos current_velocity : Vec2)
    (tree : List SpatialEntry) :
    (cappedSteering self_id target_pos current_pos current_velocity tree = 0 ∨
      (cappedSteering self_id target_pos current_pos current_velocity
          tree).length = MAX_FORCE) ∧
      (get_neighbour_ahead self_id current_pos current_velocity tree = none →
        finalSteering self_id target_pos current_pos current_velocity tree
          = cappedSteering self_id target_pos current_pos current_velocity
              tree) ∧
      ∀ ob : Vec2,
        get_neighbour_ahead self_id current_pos current_velocity tree
            = some ob →
          finalSteering self_id target_pos current_pos current_velocity tree
            = cappedSteering self_id target_pos current_pos current_velocity
                tree
              + brakeVec self_id current_velocity
                  (cappedSteering self_id target_pos current_pos
                    current_velocity tree)
                  current_pos tree := by
  refine ⟨?_, ?_, ?_⟩
  · simp only [cappedSteering]
    split
    · next h => left; exact h
    · next h =>
      right
      rw [Vec2.length_mulr, Vec2.norm_or_zero_length h, mul_one]
      exact abs_of_pos (by rw [MAX_FORCE]; norm_num)
  · intro hnone
    simp only [finalSteering, hnone]
  · intro ob hob
    simp only [finalSteering, hob]

/-- Witness for C5's amended theorem at the concrete queue scenario. -/
theorem C5_witness :
    get_neighbour_ahead 0 ⟨0, 0⟩ ⟨1, 0⟩ qtree = some ⟨30, 0⟩ ∧
      finalSteering 0 ⟨100, 0⟩ ⟨0, 0⟩ ⟨1, 0⟩ qtree
        = cappedSteering 0 ⟨100, 0⟩ ⟨0, 0⟩ ⟨1, 0⟩ qtree
          + brakeVec 0 ⟨1, 0⟩ (cappedSteering 0 ⟨100, 0⟩ ⟨0, 0⟩ ⟨1, 0⟩ qtree)
              ⟨0, 0⟩ qtree :=
  ⟨q_ahead,
    (C5_cap_order 0 ⟨100, 0⟩ ⟨0, 0⟩ ⟨1, 0⟩ qtree).2.2 ⟨30, 0⟩ q_ahead⟩

/-- C5 (counterexample to the claim as stated): in the queue scenario the
steering vector that `apply_forces` adds to the velocity has magnitude
`39.72 > MAX_FORCE = 3.6`; had all components been summed before the cap,
its magnitude would be `0` or `MAX_FORCE` — so a component (the queueing
brake) is added after the magnitude cap. -/
theorem C5_counterexample :
    MAX_FORCE < (finalSteering 0 ⟨100, 0⟩ ⟨0, 0⟩ ⟨1, 0⟩ qtree).length := by
  rw [q_final,
    Vec2.length_eval (by norm_num)
      (show ((-39.72:ℝ)) ^ 2 + (0:ℝ) ^ 2 = 39.72 ^ 2 by norm_num),
    MAX_FORCE]
  norm_num
